import Mathlib

/-!
Shallow embedding of the credential-managed RAG pipeline from the
search-tutorial Python sources (auth.py, utils.py, search_advanced.py,
server.py), with theorems settling the specification claims.
-/

set_option maxRecDepth 4000

namespace GlooRag

/-! ### auth.py: TokenManager

Time is modelled as an integer number of seconds (the source calls
time.time(); get_access_token truncates it with int()).  One call to
ensure_valid_token is modelled as a pure function of the current time,
the outcome the token endpoint would give if queried, and the cached
state; it returns the result together with the number of grant
requests issued (0 or 1). -/

/-- Cached token data, mirroring the dictionary stored in
TokenManager.access_token_info after a successful get_access_token.
The access_token field is Option because the source stores the parsed
body without checking that key; it is only read later. -/
structure TokenData where
  access_token : Option String
  expires_in : Int
  expires_at : Int
  deriving Repr, DecidableEq

/-- Outcome of one POST to the token endpoint, as seen by the code:
either a requests.exceptions.RequestException (transport failure,
non-success status via raise_for_status, or undecodable JSON), or a
decoded JSON body in which access_token and expires_in may each be
present or absent. -/
inductive TokenHttpResult where
  | reqError (msg : String)
  | ok (access_token : Option String) (expires_in : Option Int)
  deriving Repr, DecidableEq

/-- A Python exception as surfaced by the token-manager code paths:
either the wrapped auth failure raised in the except clause of
get_access_token, or an untyped KeyError from a dictionary access. -/
inductive PyError where
  | exception (msg : String)
  | keyError (key : String)
  deriving Repr, DecidableEq

/-- Discriminates the wrapped auth failure from a raw field-access
fault. -/
def PyError.isAuthException : PyError → Bool
  | .exception _ => true
  | .keyError _ => false

/-- The cached state: none models the initial empty dictionary. -/
abbrev TMState := Option TokenData

/-- TokenManager.is_token_expired: true when nothing (with an
expires_at) is cached, or when now is past expires_at minus the
60-second buffer. -/
def is_token_expired (now : Int) (st : TMState) : Bool :=
  match st with
  | none => true
  | some t => now > t.expires_at - 60

/-- TokenManager.get_access_token: wraps any RequestException in a
generic Exception; on a decoded body it reads expires_in by key
(raising KeyError when absent) and computes expires_at = now +
expires_in before caching the data. -/
def get_access_token (now : Int) (resp : TokenHttpResult) :
    Except PyError TokenData :=
  match resp with
  | .reqError msg => .error (.exception ("Failed to obtain access token: " ++ msg))
  | .ok tok ei =>
    match ei with
    | none => .error (.keyError "expires_in")
    | some n => .ok ⟨tok, n, now + n⟩

/-- TokenManager.ensure_valid_token: refreshes when expired, then
returns access_token_info by key (raising KeyError when that key is
absent).  The second component counts grant requests issued by this
call. -/
def ensure_valid_token (now : Int) (resp : TokenHttpResult) (st : TMState) :
    Except PyError (String × TMState) × Nat :=
  if is_token_expired now st then
    match get_access_token now resp with
    | .error e => (.error e, 1)
    | .ok td =>
      match td.access_token with
      | none => (.error (.keyError "access_token"), 1)
      | some t => (.ok (t, some td), 1)
  else
    match st with
    | none => (.error (.keyError "access_token"), 0)
    | some c =>
      match c.access_token with
      | none => (.error (.keyError "access_token"), 0)
      | some t => (.ok (t, some c), 0)

/-! ### utils.py: normalize_limit

The input is modelled as Option Int: some n when int(value) parses to
n, none when int(value) raises TypeError or ValueError. -/

/-- normalize_limit from utils.py. -/
def normalize_limit (value : Option Int) (fallback minimum maximum : Int) : Int :=
  match value with
  | none => fallback
  | some parsed => max minimum (min parsed maximum)

/-! ### search_advanced.py: AdvancedSearchClient.search post-processing

A search result mirrors one element of the response data array: the
nested properties and metadata dictionaries are flattened, each field
Option because the source reads them with .get and a default.
Certainty is modelled as a rational. -/

/-- One element of the search response data array. -/
structure SearchResult where
  item_title : Option String
  type : Option String
  snippet : Option String
  certainty : Option ℚ
  deriving Repr, DecidableEq

/-- Sort key used by the source: metadata certainty with default 0. -/
def certaintyKey (r : SearchResult) : ℚ :=
  r.certainty.getD 0

/-- Comparison passed to the stable sort: a precedes b when the key of
a is at least the key of b (descending order; Python sorted with
reverse=True is stable). -/
def certaintyGE (a b : SearchResult) : Prop :=
  certaintyKey b ≤ certaintyKey a

instance : DecidableRel certaintyGE := fun a b =>
  inferInstanceAs (Decidable (certaintyKey b ≤ certaintyKey a))

instance : IsTotal SearchResult certaintyGE :=
  ⟨fun a b => (le_total (certaintyKey b) (certaintyKey a)).imp id id⟩

instance : IsTrans SearchResult certaintyGE :=
  ⟨fun _ _ _ hab hbc => le_trans hbc hab⟩

/-- The post-processing step of AdvancedSearchClient.search: when
certainty sort is requested and the data array is non-empty, re-sort
it stably descending by certainty; otherwise return the data
unchanged. -/
def search_sort (sort_by : String) (data : List SearchResult) : List SearchResult :=
  if sort_by = "certainty" ∧ data ≠ [] then
    List.insertionSort certaintyGE data
  else
    data

/-! ### search_advanced.py: RAGHelper -/

/-- One extracted snippet dictionary. -/
structure Snippet where
  text : String
  title : String
  type : String
  relevance : ℚ
  deriving Repr, DecidableEq

/-- The projection applied to each retained result inside
RAGHelper.extract_snippets: missing snippet yields the empty string,
missing title or type yield the string N/A, missing certainty yields
relevance 0; snippet text is truncated by slice to max_chars
characters. -/
def snippetOfResult (max_chars : Nat) (r : SearchResult) : Snippet where
  text := (r.snippet.getD "").take max_chars
  title := r.item_title.getD "N/A"
  type := r.type.getD "N/A"
  relevance := r.certainty.getD 0

/-- RAGHelper.extract_snippets: empty or missing data gives no
snippets, otherwise the first max_snippets results in order, each
projected to a snippet. -/
def extract_snippets (data : List SearchResult)
    (max_snippets max_chars : Nat) : List Snippet :=
  if data = [] then []
  else (data.take max_snippets).map (snippetOfResult max_chars)

/-- Python str.join with the fixed separator used by
format_context_for_llm. -/
def joinParts : List String → String
  | [] => ""
  | [p] => p
  | p :: q :: rest => p ++ "\n---\n" ++ joinParts (q :: rest)

/-- The string appended for the snippet s at 1-based position i inside
the loop of format_context_for_llm. -/
def sourcePart (i : Nat) (s : Snippet) : String :=
  "[Source " ++ toString i ++ ": " ++ s.title ++ " (" ++ s.type ++ ")]\n"
    ++ s.text ++ "\n"

/-- RAGHelper.format_context_for_llm: enumerate the snippets from 1,
build one part per snippet, join with the fixed separator. -/
def format_context_for_llm (snippets : List Snippet) : String :=
  joinParts ((List.enumFrom 1 snippets).map fun p => sourcePart p.1 p.2)

/-- Specification-side composer, following the words of the spec: for
each snippet emit a header line with its 1-based index, title and
type, then the snippet text, blocks joined by the fixed separator.
Written as direct recursion on the snippet list carrying the next
index, to be compared with the source-side definition. -/
def composeSpecFrom (i : Nat) : List Snippet → String
  | [] => ""
  | [s] =>
    "[Source " ++ toString i ++ ": " ++ s.title ++ " (" ++ s.type ++ ")]\n"
      ++ s.text ++ "\n"
  | s :: t :: rest =>
    "[Source " ++ toString i ++ ": " ++ s.title ++ " (" ++ s.type ++ ")]\n"
      ++ s.text ++ "\n" ++ "\n---\n" ++ composeSpecFrom (i + 1) (t :: rest)

/-! ### search_advanced.py: RAGHelper.generate_with_context -/

/-- One chat message of the request body. -/
structure Message where
  role : String
  content : String
  deriving Repr, DecidableEq

/-- The default system prompt hard-coded in generate_with_context. -/
def default_system_prompt : String :=
  "You are a helpful assistant. Answer the user\x27s question based on the "
    ++ "provided context. If the context doesn\x27t contain relevant information, "
    ++ "say so honestly."

/-- The messages list built by generate_with_context: the source tests
the supplied prompt for Python falsiness, so both an absent and an
empty prompt select the default. -/
def generate_messages (query context : String) (system_prompt : Option String) :
    List Message :=
  let sp :=
    match system_prompt with
    | none => default_system_prompt
    | some s => if s = "" then default_system_prompt else s
  [⟨"system", sp⟩,
   ⟨"user", "Context:\n" ++ context ++ "\n\nQuestion: " ++ query⟩]

/-! ### config.py defaults used by the pipeline -/

/-- Default RAG_CONTEXT_MAX_SNIPPETS from config.py. -/
def RAG_CONTEXT_MAX_SNIPPETS : Nat := 5

/-- Default RAG_CONTEXT_MAX_CHARS_PER_SNIPPET from config.py. -/
def RAG_CONTEXT_MAX_CHARS_PER_SNIPPET : Nat := 350

/-! ### server.py: api_rag, the RAG pipeline orchestrator

The try-body of the route is modelled as a pure function of the query,
the normalized limit, the outcome the search step would produce, and
the outcome the generation step would produce for a given composed
context.  The second component of the result counts generation
requests issued. -/

/-- A typed step failure forwarded by the orchestrator; the
constructor records which step originated it. -/
inductive PipeError where
  | auth (msg : String)
  | search (msg : String)
  | generation (msg : String)
  deriving Repr, DecidableEq

/-- The JSON object returned on success: the answer text and one
(title, type) pair per snippet used. -/
structure RagResponse where
  response : String
  sources : List (String × String)
  deriving Repr, DecidableEq

/-- The try-body of server.py api_rag: search, short-circuit on zero
results, extract snippets bounded by min limit RAG_CONTEXT_MAX_SNIPPETS
and RAG_CONTEXT_MAX_CHARS_PER_SNIPPET, compose the context, generate,
and report the sources; any step failure propagates unchanged. -/
def api_rag_core (query : String) (limit : Nat)
    (searchOutcome : Except PipeError (List SearchResult))
    (genOutcome : String → String → Except PipeError String) :
    Except PipeError RagResponse × Nat :=
  match searchOutcome with
  | .error e => (.error e, 0)
  | .ok data =>
    if data = [] then
      (.ok ⟨"No relevant content found.", []⟩, 0)
    else
      let snippet_limit := min limit RAG_CONTEXT_MAX_SNIPPETS
      let snippets := extract_snippets data snippet_limit RAG_CONTEXT_MAX_CHARS_PER_SNIPPET
      let context := format_context_for_llm snippets
      match genOutcome query context with
      | .error e => (.error e, 1)
      | .ok answer =>
        (.ok ⟨answer, snippets.map fun s => (s.title, s.type)⟩, 1)

/-! ### Concrete inputs used by the example parts of the claims -/

/-- Search result with certainty 0.5 (server order position 1). -/
def r05 : SearchResult := ⟨some "a", some "Article", some "s", some (mkRat 5 10)⟩

/-- Search result with certainty 0.9 (server order position 2). -/
def r09 : SearchResult := ⟨some "b", some "Article", some "s", some (mkRat 9 10)⟩

/-- Search result with certainty 0.7 (server order position 3). -/
def r07 : SearchResult := ⟨some "c", some "Article", some "s", some (mkRat 7 10)⟩

/-- A snippet text of 500 identical characters. -/
def longSnippet : String := String.mk (List.replicate 500 'a')

/-- A search result carrying the 500-character snippet. -/
def mkRes (t : String) : SearchResult :=
  ⟨some t, some "Article", some longSnippet, some (mkRat 5 10)⟩

/-- Eight search results whose snippet texts have length 500 each. -/
def eightResults : List SearchResult :=
  [mkRes "t1", mkRes "t2", mkRes "t3", mkRes "t4",
   mkRes "t5", mkRes "t6", mkRes "t7", mkRes "t8"]

/-! ### Helper lemmas -/

/-- Unfolded form of extract_snippets: the empty-data guard of the
source is redundant, extraction is take followed by projection. -/
theorem extract_snippets_eq (data : List SearchResult) (ms mc : Nat) :
    extract_snippets data ms mc = (data.take ms).map (snippetOfResult mc) := by
  cases data <;> simp [extract_snippets]

/-- Certainty sort is the stable insertion sort, the empty-data guard
of the source being redundant. -/
theorem search_sort_certainty_eq (data : List SearchResult) :
    search_sort "certainty" data = List.insertionSort certaintyGE data := by
  cases data <;> simp [search_sort]

/-- Inserting a result into a list commutes with filtering by an exact
certainty key: the inserted element lands in front of every kept
element with the same key, because insertion only passes over strictly
greater keys. -/
theorem filter_orderedInsert_certainty (c : ℚ) (a : SearchResult)
    (l : List SearchResult) :
    (l.orderedInsert certaintyGE a).filter (fun r => certaintyKey r == c) =
      if certaintyKey a == c then
        a :: l.filter (fun r => certaintyKey r == c)
      else
        l.filter (fun r => certaintyKey r == c) := by
  induction l with
  | nil =>
    simp only [List.orderedInsert, List.filter_cons, List.filter_nil]
  | cons b l ih =>
    by_cases hab : certaintyGE a b
    · rw [List.orderedInsert, if_pos hab, List.filter_cons]
    · rw [List.orderedInsert, if_neg hab, List.filter_cons, ih]
      have hlt : certaintyKey a < certaintyKey b := by
        have := hab
        simp only [certaintyGE, not_le] at this
        exact this
      by_cases hac : certaintyKey a = c
      · have hbc : ¬ certaintyKey b = c := fun h =>
          absurd hlt (by rw [hac, h]; exact lt_irrefl c)
        simp [hac, hbc, List.filter_cons]
      · by_cases hbc : certaintyKey b = c
        · simp [hac, hbc, List.filter_cons]
        · simp [hac, hbc, List.filter_cons]

/-- The stable sort preserves, for each certainty key value, the exact
subsequence of results carrying that key. -/
theorem filter_insertionSort_certainty (c : ℚ) (l : List SearchResult) :
    (List.insertionSort certaintyGE l).filter (fun r => certaintyKey r == c) =
      l.filter (fun r => certaintyKey r == c) := by
  induction l with
  | nil => rfl
  | cons a l ih =>
    rw [List.insertionSort, filter_orderedInsert_certainty, ih, List.filter_cons]

/-- Joining the parts built from a 1-based enumeration agrees with the
direct recursive composition, for every starting index. -/
theorem joinParts_map_enumFrom :
    ∀ (l : List Snippet) (n : Nat),
      joinParts ((List.enumFrom n l).map fun p => sourcePart p.1 p.2) =
        composeSpecFrom n l
  | [], _ => rfl
  | [_], _ => by
    simp [List.enumFrom, joinParts, composeSpecFrom, sourcePart, String.append_assoc]
  | s :: t :: rest, n => by
    have ih := joinParts_map_enumFrom (t :: rest) (n + 1)
    simp only [List.enumFrom, List.map] at ih ⊢
    rw [joinParts, ih, composeSpecFrom]
    simp [sourcePart, String.append_assoc]

/-! ### Claim C1: token caching and refresh -/

/-- Claim C1, counterexample to the claim as stated: when the token
endpoint reports expires_in = 0, the refresh at now = 1000 caches a
credential with expires_at = 1000 and returns it for immediate use,
although 1000 is later than expires_at minus the 60-second buffer; so
a credential can be used for a call made later than expiresAt - 60s. -/
theorem C1_token_refresh_cex :
    ensure_valid_token 1000 (.ok (some "t") (some 0)) none =
      (.ok ("t", some ⟨some "t", 0, 1000⟩), 1) ∧
    ¬ ((1000 : Int) ≤ 1000 - 60) :=
  ⟨rfl, by decide⟩

/-- Claim C1 (amended): a call at now at most expiresAt - 60 returns
the cached token unchanged with no grant request; a call with an
expired or absent credential issues exactly one grant request, caches
expires_at = now + expires_in and returns the new token; and whenever
a call returns a token, the credential it came from satisfies now at
most expiresAt - 60, provided every token response carries
expires_in at least 60. -/
theorem C1_token_refresh_amended :
    (∀ (now : Int) (c : TokenData) (t : String) (r : TokenHttpResult),
      c.access_token = some t → now ≤ c.expires_at - 60 →
      ensure_valid_token now r (some c) = (.ok (t, some c), 0)) ∧
    (∀ (now : Int) (st : TMState) (t : String) (n : Int),
      is_token_expired now st = true →
      ensure_valid_token now (.ok (some t) (some n)) st =
        (.ok (t, some ⟨some t, n, now + n⟩), 1)) ∧
    (∀ (now : Int) (r : TokenHttpResult) (st : TMState) (t : String)
      (st2 : TMState) (k : Nat),
      ensure_valid_token now r st = (.ok (t, st2), k) →
      (∀ (a : Option String) (n : Int), r = .ok a (some n) → 60 ≤ n) →
      ∃ c, st2 = some c ∧ c.access_token = some t ∧ now ≤ c.expires_at - 60) := by
  refine ⟨?_, ?_, ?_⟩
  · intro now c t r ht hle
    have hexp : is_token_expired now (some c) = false :=
      decide_eq_false (not_lt.mpr hle)
    simp [ensure_valid_token, hexp, ht]
  · intro now st t n hexp
    simp [ensure_valid_token, hexp, get_access_token]
  · intro now r st t st2 k heq hge
    rw [ensure_valid_token.eq_def] at heq
    split at heq
    case isTrue hexp =>
      cases r with
      | reqError m => simp [get_access_token] at heq
      | ok a ei =>
        cases ei with
        | none => simp [get_access_token] at heq
        | some n =>
          cases a with
          | none => simp [get_access_token] at heq
          | some t2 =>
            simp only [get_access_token] at heq
            have h60 : 60 ≤ n := hge (some t2) n rfl
            injection heq with h3 h4
            injection h3 with h5
            injection h5 with h6 h7
            refine ⟨⟨some t2, n, now + n⟩, h7.symm, by rw [← h6],
              by show now ≤ now + n - 60; omega⟩
    case isFalse hexp =>
      cases st with
      | none => simp [is_token_expired] at hexp
      | some c =>
        have hle : now ≤ c.expires_at - 60 := by
          by_contra hgt
          exact hexp (by simpa [is_token_expired] using not_le.mp hgt)
        cases hc : c.access_token with
        | none => simp [hc] at heq
        | some t2 =>
          simp only [hc] at heq
          injection heq with h3 h4
          injection h3 with h5
          injection h5 with h6 h7
          exact ⟨c, h7.symm, by rw [hc, h6], hle⟩

/-- Claim C1, witness: the amended theorem evaluated at concrete
inputs: a fresh cache reused at now = 100 with expiry 200, a refresh
at now = 500 with expires_in = 3600, and the safety bound for the
refreshed credential. -/
theorem C1_token_refresh_witness :
    ensure_valid_token 100 (.reqError "boom") (some ⟨some "tok", 3600, 200⟩) =
      (.ok ("tok", some ⟨some "tok", 3600, 200⟩), 0) ∧
    ensure_valid_token 500 (.ok (some "new") (some 3600)) none =
      (.ok ("new", some ⟨some "new", 3600, 4100⟩), 1) ∧
    ∃ c, (some (⟨some "new", 3600, 4100⟩ : TokenData) = some c ∧
      c.access_token = some "new" ∧ (500 : Int) ≤ c.expires_at - 60) := by
  refine ⟨?_, ?_, ?_⟩
  · exact C1_token_refresh_amended.1 100 ⟨some "tok", 3600, 200⟩ "tok"
      (.reqError "boom") rfl (by decide)
  · exact C1_token_refresh_amended.2.1 500 none "new" 3600 rfl
  · exact C1_token_refresh_amended.2.2 500 (.ok (some "new") (some 3600)) none
      "new" (some ⟨some "new", 3600, 4100⟩) 1
      (C1_token_refresh_amended.2.1 500 none "new" 3600 rfl)
      (fun a n h => by cases h; decide)

/-! ### Claim C7: token failure typing -/

/-- Claim C7, counterexample to the claim as stated: a success
response whose body lacks expires_in does not surface as the wrapped
auth failure; it surfaces as an untyped KeyError field-access fault. -/
theorem C7_token_errors_cex :
    (ensure_valid_token 0 (.ok (some "x") none) none).1 =
      .error (.keyError "expires_in") ∧
    PyError.isAuthException (.keyError "expires_in") = false :=
  ⟨rfl, rfl⟩

/-- Claim C7 (amended): with a refresh due, a transport failure or
non-success status surfaces as the wrapped auth exception; a success
body missing expires_in surfaces as KeyError expires_in from
get_access_token; a success body missing access_token surfaces as
KeyError access_token from ensure_valid_token; and a success body
carrying both fields yields the new access token. -/
theorem C7_token_errors_amended :
    ∀ (now : Int) (st : TMState), is_token_expired now st = true →
      (∀ m, ensure_valid_token now (.reqError m) st =
        (.error (.exception ("Failed to obtain access token: " ++ m)), 1)) ∧
      (∀ a, ensure_valid_token now (.ok a none) st =
        (.error (.keyError "expires_in"), 1)) ∧
      (∀ n, ensure_valid_token now (.ok none (some n)) st =
        (.error (.keyError "access_token"), 1)) ∧
      (∀ t n, ensure_valid_token now (.ok (some t) (some n)) st =
        (.ok (t, some ⟨some t, n, now + n⟩), 1)) := by
  intro now st hexp
  refine ⟨?_, ?_, ?_, ?_⟩ <;> intros <;>
    simp [ensure_valid_token, hexp, get_access_token]

/-- Claim C7, witness: the amended theorem evaluated with an empty
cache at now = 0, on each of the four endpoint outcomes. -/
theorem C7_token_errors_witness :
    ensure_valid_token 0 (.reqError "down") none =
      (.error (.exception ("Failed to obtain access token: " ++ "down")), 1) ∧
    ensure_valid_token 0 (.ok (some "x") none) none =
      (.error (.keyError "expires_in"), 1) ∧
    ensure_valid_token 0 (.ok none (some 3600)) none =
      (.error (.keyError "access_token"), 1) ∧
    ensure_valid_token 0 (.ok (some "x") (some 3600)) none =
      (.ok ("x", some ⟨some "x", 3600, 3600⟩), 1) := by
  have h := C7_token_errors_amended 0 none rfl
  refine ⟨h.1 "down", h.2.1 (some "x"), h.2.2.1 3600, ?_⟩
  have := h.2.2.2 "x" 3600
  simpa using this

/-! ### Claim C2: limit normalization -/

/-- Claim C2, counterexample to the claim as stated: the parsable
out-of-range input 0 with caller default 10 is clamped to 1, it does
not fall back to the default 10. -/
theorem C2_normalize_limit_cex :
    normalize_limit (some 0) 10 1 100 = 1 ∧ (1 : Int) ≠ 10 := by
  exact ⟨rfl, by decide⟩

/-- Claim C2 (amended): every parsable input is clamped into [1,100]
(500 is clamped to 100 and 0 to 1, never falling back), while only an
unparsable input falls back to the caller-supplied default, returned
unchanged. -/
theorem C2_normalize_limit_amended :
    (∀ (n f : Int), 1 ≤ normalize_limit (some n) f 1 100 ∧
      normalize_limit (some n) f 1 100 ≤ 100) ∧
    (∀ (f : Int), normalize_limit none f 1 100 = f) ∧
    normalize_limit (some 500) 10 1 100 = 100 ∧
    normalize_limit (some 0) 10 1 100 = 1 := by
  exact ⟨fun n f => ⟨le_max_left 1 (min n 100),
    max_le (by norm_num) (min_le_right n 100)⟩, fun f => rfl, rfl, rfl⟩

/-! ### Claim C3: zero-result short circuit -/

/-- Claim C3: for every pipeline run whose search step returns zero
results, the run completes successfully with the canned answer and an
empty sources list, and no generation request is issued. -/
theorem C3_zero_results :
    ∀ (q : String) (limit : Nat)
      (gen : String → String → Except PipeError String),
      api_rag_core q limit (.ok []) gen =
        (.ok ⟨"No relevant content found.", []⟩, 0) := by
  intro q limit gen
  rfl

/-! ### Claim C4: snippet extraction bounds and order -/

/-- Claim C4: extraction keeps the first min(len(results), maxSnippets)
results in their given order, each snippet text is truncated to at
most maxCharsPerSnippet characters, a missing snippet field yields the
empty string, and on 8 results of length 500 with bounds 5 and 350 it
returns exactly 5 snippets of 350 characters each in original order. -/
theorem C4_extract_snippets :
    (∀ (data : List SearchResult) (ms mc : Nat),
      (extract_snippets data ms mc).length = min data.length ms) ∧
    (∀ (data : List SearchResult) (ms mc : Nat) (s : Snippet),
      s ∈ extract_snippets data ms mc → s.text.length ≤ mc) ∧
    (∀ (data : List SearchResult) (ms mc : Nat) (i : Nat)
      (h1 : i < (extract_snippets data ms mc).length) (h2 : i < data.length),
      (extract_snippets data ms mc).get ⟨i, h1⟩ =
        snippetOfResult mc (data.get ⟨i, h2⟩)) ∧
    (∀ (mc : Nat) (r : SearchResult), r.snippet = none →
      (snippetOfResult mc r).text = "") ∧
    extract_snippets eightResults 5 350 =
      (["t1", "t2", "t3", "t4", "t5"].map fun t =>
        ⟨String.mk (List.replicate 350 'a'), t, "Article", mkRat 5 10⟩) := by
  refine ⟨?_, ?_, ?_, ?_, ?_⟩
  · intro data ms mc
    rw [extract_snippets_eq]
    simp [Nat.min_comm]
  · intro data ms mc s hs
    rw [extract_snippets_eq] at hs
    obtain ⟨r, -, rfl⟩ := List.mem_map.mp hs
    have : (snippetOfResult mc r).text = ⟨((r.snippet.getD "").data.take mc)⟩ := by
      simp [snippetOfResult, String.take_eq]
    rw [this]
    show ((r.snippet.getD "").data.take mc).length ≤ mc
    rw [List.length_take]
    exact Nat.min_le_left ..
  · intro data ms mc i h1 h2
    simp only [extract_snippets_eq, List.get_eq_getElem] at h1 ⊢
    rw [List.getElem_map, List.getElem_take]
  · intro mc r h
    simp [snippetOfResult, h, String.take_eq]
  · simp [extract_snippets, eightResults, mkRes, snippetOfResult, longSnippet,
      String.take_eq, List.take_replicate]

/-- Claim C4, witness: the parts with hypotheses evaluated at a
one-element result list, at index 0, and at a result with no snippet
field. -/
theorem C4_extract_snippets_witness :
    (snippetOfResult 350 r05).text.length ≤ 350 ∧
    (extract_snippets [r05] 1 350).get ⟨0, by decide⟩ =
      snippetOfResult 350 r05 ∧
    (snippetOfResult 7 ⟨some "x", none, none, none⟩).text = "" := by
  refine ⟨?_, ?_, ?_⟩
  · exact C4_extract_snippets.2.1 [r05] 1 350 (snippetOfResult 350 r05)
      (by simp [extract_snippets_eq])
  · exact C4_extract_snippets.2.2.1 [r05] 1 350 0 (by decide) (by decide)
  · exact C4_extract_snippets.2.2.2.1 7 ⟨some "x", none, none, none⟩ rfl

/-! ### Claim C5: deterministic context composition -/

/-- Claim C5: composing the context emits, for each snippet, a header
line with its 1-based index, title and type, followed by the snippet
text and a trailing newline, blocks joined by the fixed separator; and
two calls on an identical snippet list produce identical strings. -/
theorem C5_compose :
    (∀ (snippets : List Snippet),
      format_context_for_llm snippets = composeSpecFrom 1 snippets) ∧
    (∀ (s t : List Snippet), s = t →
      format_context_for_llm s = format_context_for_llm t) :=
  ⟨fun snippets => joinParts_map_enumFrom snippets 1,
   fun _ _ h => h ▸ rfl⟩

/-- Claim C5, witness: the determinism part applied to two identical
one-snippet lists, and the characterization at that list. -/
theorem C5_compose_witness :
    format_context_for_llm [⟨"body", "title", "Article", 0⟩] =
      format_context_for_llm [⟨"body", "title", "Article", 0⟩] ∧
    format_context_for_llm [⟨"body", "title", "Article", 0⟩] =
      composeSpecFrom 1 [⟨"body", "title", "Article", 0⟩] :=
  ⟨C5_compose.2 [⟨"body", "title", "Article", 0⟩]
      [⟨"body", "title", "Article", 0⟩] rfl,
   C5_compose.1 [⟨"body", "title", "Article", 0⟩]⟩

/-! ### Claim C6: result ordering -/

/-- Claim C6: the default sort returns results in server order
unchanged; certainty sort returns a permutation sorted descending by
certainty in which, for every certainty value, the results carrying it
keep their original relative order; and certainties 0.5, 0.9, 0.7 come
out as 0.9, 0.7, 0.5 under certainty sort while staying in server
order by default. -/
theorem C6_search_sort :
    (∀ (data : List SearchResult), search_sort "relevance" data = data) ∧
    (∀ (data : List SearchResult), (search_sort "certainty" data).Perm data) ∧
    (∀ (data : List SearchResult),
      List.Sorted certaintyGE (search_sort "certainty" data)) ∧
    (∀ (data : List SearchResult) (c : ℚ),
      (search_sort "certainty" data).filter (fun r => certaintyKey r == c) =
        data.filter (fun r => certaintyKey r == c)) ∧
    search_sort "certainty" [r05, r09, r07] = [r09, r07, r05] ∧
    search_sort "relevance" [r05, r09, r07] = [r05, r09, r07] := by
  refine ⟨?_, ?_, ?_, ?_, by decide, rfl⟩
  · intro data
    simp [search_sort]
  · intro data
    rw [search_sort_certainty_eq]
    exact List.perm_insertionSort certaintyGE data
  · intro data
    rw [search_sort_certainty_eq]
    exact List.sorted_insertionSort certaintyGE data
  · intro data c
    rw [search_sort_certainty_eq]
    exact filter_insertionSort_certainty c data

/-! ### Claim C8: fail-fast pipeline -/

/-- Claim C8: the first failing step terminates the run: a search
failure is forwarded with its kind intact and no generation request is
issued, and a generation failure is forwarded with its kind intact
while the composed context is discarded rather than surfaced. -/
theorem C8_fail_fast :
    (∀ (q : String) (limit : Nat)
      (gen : String → String → Except PipeError String) (e : PipeError),
      api_rag_core q limit (.error e) gen = (.error e, 0)) ∧
    (∀ (q : String) (limit : Nat)
      (gen : String → String → Except PipeError String)
      (data : List SearchResult) (e : PipeError),
      data ≠ [] →
      gen q (format_context_for_llm (extract_snippets data
        (min limit RAG_CONTEXT_MAX_SNIPPETS)
        RAG_CONTEXT_MAX_CHARS_PER_SNIPPET)) = .error e →
      api_rag_core q limit (.ok data) gen = (.error e, 1)) := by
  refine ⟨fun q limit gen e => rfl, ?_⟩
  intro q limit gen data e hne hgen
  simp [api_rag_core, hne, hgen]

/-- Claim C8, witness: both parts evaluated at a one-element result
list with a generation step that fails with a generation error. -/
theorem C8_fail_fast_witness :
    api_rag_core "q" 5 (.error (.search "boom"))
      (fun _ _ => .error (.generation "g")) =
      (.error (.search "boom"), 0) ∧
    api_rag_core "q" 5 (.ok [⟨some "a", some "Article", some "s", some 1⟩])
      (fun _ _ => .error (.generation "g")) =
      (.error (.generation "g"), 1) :=
  ⟨C8_fail_fast.1 "q" 5 (fun _ _ => .error (.generation "g")) (.search "boom"),
   C8_fail_fast.2 "q" 5 (fun _ _ => .error (.generation "g"))
     [⟨some "a", some "Article", some "s", some 1⟩] (.generation "g")
     (by decide) rfl⟩

/-! ### Claim C9: generation request messages -/

/-- Claim C9, counterexample to the claim as stated: a caller-supplied
empty system prompt is replaced by the default (the source tests the
prompt for Python falsiness), so the system message content is not the
caller-supplied prompt. -/
theorem C9_messages_cex :
    (generate_messages "q" "c" (some "")).map Message.content ≠
      ["", "Context:\nc\n\nQuestion: q"] := by
  decide

/-- Claim C9 (amended): the request carries exactly two messages:
first a system message whose content is the caller-supplied prompt
when one is supplied and non-empty, and the fixed default when the
prompt is absent or empty; then a user message of exactly the form
Context newline context blank line Question colon query. -/
theorem C9_messages_amended :
    (∀ (q c s : String), s ≠ "" →
      generate_messages q c (some s) =
        [⟨"system", s⟩, ⟨"user", "Context:\n" ++ c ++ "\n\nQuestion: " ++ q⟩]) ∧
    (∀ (q c : String),
      generate_messages q c none =
        [⟨"system", default_system_prompt⟩,
         ⟨"user", "Context:\n" ++ c ++ "\n\nQuestion: " ++ q⟩]) ∧
    (∀ (q c : String),
      generate_messages q c (some "") =
        [⟨"system", default_system_prompt⟩,
         ⟨"user", "Context:\n" ++ c ++ "\n\nQuestion: " ++ q⟩]) := by
  refine ⟨?_, fun q c => rfl, fun q c => rfl⟩
  intro q c s hs
  simp [generate_messages, hs]

/-- Claim C9, witness: the non-empty-prompt part applied to a concrete
prompt. -/
theorem C9_messages_witness :
    generate_messages "q" "c" (some "Be brief.") =
      [⟨"system", "Be brief."⟩, ⟨"user", "Context:\nc\n\nQuestion: q"⟩] :=
  C9_messages_amended.1 "q" "c" "Be brief." (by decide)

/-! ### Claim C10: empty composition -/

/-- Claim C10: composing the empty snippet list returns the empty
string: no header line and no separator is emitted. -/
theorem C10_compose_empty : format_context_for_llm [] = "" := rfl

end GlooRag
